import Mathlib

set_option autoImplicit false

/-!
Verification of the MindCache memory engine against its specification.

The JavaScript transport layer of the repository (the Express controllers,
the FFI bridge dbBridge.js, the client SDK and the Joi validation schemas)
is embedded shallowly below.  The Rust storage core is not part of the
repository's files; the few core entry points the bridge calls
(mindcache_save, mindcache_recall, mindcache_summarize) are modelled from
the specification and are each marked with a doc comment starting
"Modelled from the spec".
-/

namespace MindCache

/-- A stored memory record (spec section 3).  Ids are modelled as naturals
(the spec treats them as opaque), timestamps as milliseconds since the
epoch, importance as a rational in the unit interval. -/
structure Memory where
  id : Nat
  userId : String
  sessionId : String
  content : String
  metadata : String
  importance : Rat
  timestamp : Nat
  expiresAt : Option Nat
deriving Repr, DecidableEq

/-- The bridge configuration with the defaults of the RustBridge
constructor (dbBridge.js, src/unnamed/part_000 lines 15 to 23). -/
structure Config where
  default_memory_ttl_hours : Nat := 720
  max_memories_per_user : Nat := 10000
  importance_threshold : Rat := mkRat 3 10
deriving Repr

/-- The durable state of the core: the next fresh id and the appended
records. -/
structure StoreState where
  nextId : Nat
  memories : List Memory
deriving Repr, DecidableEq

/-- Modelled from the spec: the Rust core entry mindcache_recall is not
among the repository's files; only its FFI declaration is
(src/unnamed/part_000 line 74), taking exactly a pointer, the user id, the
query, the session id and an integer limit.  Per the spec's query planner
(section 4.5) the model composes the user, session and full-text filters
over the stored memories and trims to the limit; a null user id is
modelled as seeding from the session index alone (spec 4.5 step 1).  The
ranking step (order by score) is omitted from the model: no claim settled
in this file depends on the order of the returned list, and matches are
returned in store order. -/
def mindcache_recall (store : List Memory) (userId query sessionId : Option String)
    (limit : Nat) : List Memory :=
  (store.filter fun m =>
    (match userId with | none => true | some u => m.userId == u)
    && (match sessionId with | none => true | some s => m.sessionId == s)
    && (match query with | none => true | some q => (m.content.splitOn q).length != 1)).take
    limit

/-- Modelled from the spec: the Rust core entry mindcache_save is not among
the repository's files; only its FFI declaration is (src/unnamed/part_000
line 73), taking exactly a pointer, the user id, the session id, the
content and the metadata JSON.  Per spec section 4.4 the core assigns the
next id, stamps created_at with the current clock and computes expires_at
from the ttl; since the FFI entry receives neither a ttlHours nor an
importance argument, the model applies the config default ttl and the spec
default importance 0.5, appends the record and returns the new id. -/
def mindcache_save (cfg : Config) (now : Nat) (st : StoreState)
    (userId sessionId content metadataJson : String) : StoreState × Nat :=
  let m : Memory :=
    { id := st.nextId
      userId := userId
      sessionId := sessionId
      content := content
      metadata := metadataJson
      importance := mkRat 1 2
      timestamp := now
      expiresAt := some (now + cfg.default_memory_ttl_hours * 3600000) }
  ({ nextId := st.nextId + 1, memories := st.memories ++ [m] }, st.nextId)

/-- The filter object memoryController.recallMemories builds from the
request body and hands to the bridge (memoryController.js lines 72 to
81). -/
structure RecallFilter where
  userId : Option String := none
  query : Option String := none
  sessionId : Option String := none
  dateFrom : Option Nat := none
  dateTo : Option Nat := none
  limit : Nat := 50
  minImportance : Option Rat := none
  keywords : Option (List String) := none
deriving Repr

/-- The input object RustBridge.saveMemory destructures
(src/unnamed/part_000 line 177), importance defaulting to 0.5 and ttlHours
to null. -/
structure SaveMemoryInput where
  userId : String
  sessionId : String
  content : String
  metadata : String := "\x7b\x7d"
  importance : Rat := mkRat 1 2
  ttlHours : Option Nat := none
deriving Repr

namespace RustBridge

/-- RustBridge.recallMemories (src/unnamed/part_000 lines 209 to 243):
destructures only userId, query, sessionId and limit from the filter and
forwards them to mindcache_recall; the minImportance, dateFrom, dateTo and
keywords fields of the filter are dropped. -/
def recallMemories (store : List Memory) (filter : RecallFilter) : List Memory :=
  mindcache_recall store filter.userId filter.query filter.sessionId filter.limit

/-- RustBridge.saveMemory (src/unnamed/part_000 lines 177 to 204): accepts
importance and ttlHours in its input but calls mindcache_save with only
the user id, session id, content and metadata JSON, so importance and
ttlHours are dropped at the FFI boundary. -/
def saveMemory (cfg : Config) (now : Nat) (st : StoreState)
    (inp : SaveMemoryInput) : StoreState × Nat :=
  mindcache_save cfg now st inp.userId inp.sessionId inp.content inp.metadata

end RustBridge

/-- JavaScript blank test: the controller's check that sessionId.trim()
is the empty string holds exactly when every character of the string is
whitespace; it is modelled at the character-list level. -/
def jsIsBlank (s : String) : Bool :=
  s.data.all Char.isWhitespace

/-- JavaScript truthiness fallback on an optional number, as in the
controller's value-or-default expressions: an absent or zero value falls
back to the default. -/
def jsOrRat (x : Option Rat) (d : Rat) : Rat :=
  match x with
  | none => d
  | some v => if v = 0 then d else v

/-- JavaScript value-or-default on an optional natural. -/
def jsOrNat (x : Option Nat) (d : Nat) : Nat :=
  match x with
  | none => d
  | some v => if v = 0 then d else v

/-- JavaScript value-or-null on an optional number: zero collapses to
null. -/
def jsOrNullRat (x : Option Rat) : Option Rat :=
  match x with
  | none => none
  | some v => if v = 0 then none else some v

/-- JavaScript value-or-null on an optional natural. -/
def jsOrNullNat (x : Option Nat) : Option Nat :=
  match x with
  | none => none
  | some v => if v = 0 then none else some v

/-- JavaScript value-or-null on an optional string: the empty string
collapses to null. -/
def jsOrNullStr (x : Option String) : Option String :=
  match x with
  | none => none
  | some v => if v = "" then none else some v

/-- The JSON body of a recall request (memoryController.js lines 57 to
66). -/
structure RecallBody where
  userId : String
  query : Option String := none
  sessionId : Option String := none
  dateFrom : Option Nat := none
  dateTo : Option Nat := none
  limit : Option Nat := none
  minImportance : Option Rat := none
  keywords : Option (List String) := none
deriving Repr

/-- The JSON body of a save request (memoryController.js line 12). -/
structure SaveBody where
  userId : String
  sessionId : String
  content : String
  metadata : Option String := none
  importance : Option Rat := none
  ttlHours : Option Nat := none
deriving Repr, DecidableEq

/-- The outcome of the save controller: either the new store with the new
memory id, or the missing-session-id validation error thrown on line 18 of
memoryController.js. -/
inductive SaveResult
  | saved (st : StoreState) (memoryId : Nat)
  | missingSessionId
deriving Repr, DecidableEq

namespace memoryController

/-- The filter built by the recall controller (memoryController.js lines
72 to 81): each optional field is a JavaScript value-or-default, so an
absent or falsy field falls back (limit to 50, the rest to null). -/
def buildRecallFilter (b : RecallBody) : RecallFilter :=
  { userId := some b.userId
    query := jsOrNullStr b.query
    sessionId := jsOrNullStr b.sessionId
    dateFrom := b.dateFrom
    dateTo := b.dateTo
    limit := jsOrNat b.limit 50
    minImportance := jsOrNullRat b.minImportance
    keywords := b.keywords }

/-- The recall controller (memoryController.js lines 56 to 109): builds
the filter and returns what the bridge recalls. -/
def recallMemories (store : List Memory) (b : RecallBody) : List Memory :=
  RustBridge.recallMemories store (buildRecallFilter b)

/-- The save controller (memoryController.js lines 11 to 50): rejects a
blank session id, then saves through the bridge with importance defaulted
to 0.5 and ttlHours to null. -/
def saveMemory (cfg : Config) (now : Nat) (st : StoreState) (b : SaveBody) :
    SaveResult :=
  if jsIsBlank b.sessionId then .missingSessionId
  else
    let r := RustBridge.saveMemory cfg now st
      { userId := b.userId
        sessionId := b.sessionId
        content := b.content
        metadata := (match b.metadata with | none => "\x7b\x7d" | some s => s)
        importance := jsOrRat b.importance (mkRat 1 2)
        ttlHours := jsOrNullNat b.ttlHours }
    .saved r.1 r.2

end memoryController

/-- A concrete stored memory whose importance 0.2 lies below the threshold
0.4 used in the claim-C1 counterexample. -/
def lowImportanceMemory : Memory :=
  { id := 0
    userId := "u1"
    sessionId := "s1"
    content := "a low importance note"
    metadata := "\x7b\x7d"
    importance := mkRat 1 5
    timestamp := 1000
    expiresAt := none }

/-- Claim C1: recalling with a user id and min_importance 0.4 over a store
holding one memory of importance 0.2 returns that memory instead of
excluding it: the bridge drops min_importance before the FFI call, so no
importance filtering can happen in the core. -/
theorem recall_ignores_min_importance :
    memoryController.recallMemories [lowImportanceMemory]
        { userId := "u1", minImportance := some (mkRat 2 5) } = [lowImportanceMemory]
      ∧ lowImportanceMemory.importance < mkRat 2 5 := by
  constructor
  · rfl
  · decide

/-- The memory that the modelled core stores for the claim-C2 save request,
carrying the default importance and the default ttl expiry rather than the
caller-supplied values. -/
def savedDefaultMemory : Memory :=
  { id := 0
    userId := "u1"
    sessionId := "s1"
    content := "hello"
    metadata := "\x7b\x7d"
    importance := mkRat 1 2
    timestamp := 0
    expiresAt := some (720 * 3600000) }

/-- Claim C2: a save request carrying importance 0.9 and ttlHours 1 stores
a record with the default importance 0.5 and an expiry computed from the
default 720-hour ttl: RustBridge.saveMemory never passes importance or
ttlHours across the FFI boundary. -/
theorem save_drops_importance_and_ttl :
    memoryController.saveMemory {} 0 { nextId := 0, memories := [] }
        { userId := "u1", sessionId := "s1", content := "hello"
          importance := some (mkRat 9 10), ttlHours := some 1 }
      = .saved { nextId := 1, memories := [savedDefaultMemory] } 0
    ∧ savedDefaultMemory.importance = mkRat 1 2
    ∧ savedDefaultMemory.importance ≠ mkRat 9 10
    ∧ savedDefaultMemory.expiresAt = some (720 * 3600000)
    ∧ savedDefaultMemory.expiresAt ≠ some (1 * 3600000) := by
  refine ⟨rfl, rfl, by decide, rfl, by decide⟩

/-- The JSON body the memorySave validation schema checks
(cli/mindcache.js appended validation module, lines 767 to 774).  The
metadata field is an optional object with no further constraint and is
omitted. -/
structure MemorySaveBody where
  userId : String
  sessionId : String
  content : String
  importance : Option Rat := none
  ttlHours : Option Int := none
deriving Repr

namespace validation

/-- Joi required-string check with length bounds, as in
joi.string().required().min(a).max(b). -/
def stringLenOk (s : String) (minLen maxLen : Nat) : Bool :=
  decide (minLen ≤ s.length) && decide (s.length ≤ maxLen)

/-- The fields schemas.memorySave rejects, collected in schema order as
Joi does with abortEarly false (cli/mindcache.js lines 767 to 774):
userId and sessionId are required strings of 1 to 255 characters, content
a required string of 1 to 100000 characters, importance an optional
number in the unit interval, ttlHours an optional integer between 1 and
8760. -/
def memorySaveErrors (b : MemorySaveBody) : List String :=
  (if stringLenOk b.userId 1 255 then [] else ["userId"])
  ++ (if stringLenOk b.sessionId 1 255 then [] else ["sessionId"])
  ++ (if stringLenOk b.content 1 100000 then [] else ["content"])
  ++ (match b.importance with
      | none => []
      | some i => if 0 ≤ i ∧ i ≤ 1 then [] else ["importance"])
  ++ (match b.ttlHours with
      | none => []
      | some t => if 1 ≤ t ∧ t ≤ 8760 then [] else ["ttlHours"])

/-- A save body passes validation when no field is rejected
(createValidator in the validation module). -/
def memorySaveValid (b : MemorySaveBody) : Bool :=
  memorySaveErrors b == []

end validation

/-- A content payload of 100001 characters: more than the schema's 100000
limit yet no more than 100 KiB, which is 102400 bytes. -/
def oversizedContent : String := String.mk (List.replicate 100001 'a')

/-- Claim C5: a save body whose content is 100001 characters long, with
non-empty user and session ids, is rejected by the validation schema even
though the content does not exceed 100 KiB: the schema's limit is 100000
characters, not 100 KiB. -/
theorem memorySave_rejects_content_within_100KiB :
    validation.memorySaveValid
        { userId := "u1", sessionId := "s1", content := oversizedContent } = false
    ∧ oversizedContent.length ≤ 102400
    ∧ 1 ≤ oversizedContent.length
    ∧ "u1" ≠ "" ∧ "s1" ≠ "" := by
  have hlen : oversizedContent.length = 100001 := by
    show (List.replicate 100001 'a').length = 100001
    rw [List.length_replicate]
  refine ⟨?_, by rw [hlen]; decide, by rw [hlen]; decide, by decide, by decide⟩
  simp [validation.memorySaveValid, validation.memorySaveErrors, validation.stringLenOk,
    hlen]

/-- Claim C5, amended: with the optional importance and ttlHours fields
absent or in range, the memorySave schema accepts a body exactly when the
content is 1 to 100000 characters and the user and session ids are 1 to
255 characters; and the content field is rejected exactly when the content
is empty or longer than 100000 characters. -/
theorem memorySave_validation_spec (b : MemorySaveBody)
    (hi : ∀ i, b.importance = some i → 0 ≤ i ∧ i ≤ 1)
    (ht : ∀ t, b.ttlHours = some t → 1 ≤ t ∧ t ≤ 8760) :
    (validation.memorySaveValid b = true ↔
      (1 ≤ b.userId.length ∧ b.userId.length ≤ 255
        ∧ 1 ≤ b.sessionId.length ∧ b.sessionId.length ≤ 255
        ∧ 1 ≤ b.content.length ∧ b.content.length ≤ 100000))
    ∧ ("content" ∈ validation.memorySaveErrors b ↔
        (b.content.length = 0 ∨ 100000 < b.content.length)) := by
  have himp : (match b.importance with
      | none => ([] : List String)
      | some i => if 0 ≤ i ∧ i ≤ 1 then [] else ["importance"]) = [] := by
    cases h : b.importance with
    | none => rfl
    | some i => simp [hi i h]
  have httl : (match b.ttlHours with
      | none => ([] : List String)
      | some t => if 1 ≤ t ∧ t ≤ 8760 then [] else ["ttlHours"]) = [] := by
    cases h : b.ttlHours with
    | none => rfl
    | some t => simp [ht t h]
  constructor
  · simp only [validation.memorySaveValid, validation.memorySaveErrors,
      validation.stringLenOk, himp, httl, List.append_nil]
    constructor
    · intro h
      by_cases h1 : 1 ≤ b.userId.length ∧ b.userId.length ≤ 255 <;>
        by_cases h2 : 1 ≤ b.sessionId.length ∧ b.sessionId.length ≤ 255 <;>
        by_cases h3 : 1 ≤ b.content.length ∧ b.content.length ≤ 100000 <;>
        simp_all
    · intro h
      simp_all
  · simp only [validation.memorySaveErrors, validation.stringLenOk, himp, httl,
      List.append_nil, List.mem_append]
    constructor
    · intro h
      rcases h with (h | h) | h
      · by_cases h1 : 1 ≤ b.userId.length ∧ b.userId.length ≤ 255 <;> simp_all
      · by_cases h2 : 1 ≤ b.sessionId.length ∧ b.sessionId.length ≤ 255 <;> simp_all
      · by_cases h3 : 1 ≤ b.content.length ∧ b.content.length ≤ 100000
        · simp_all
        · simp_all
          omega
    · intro h
      right
      by_cases h3 : 1 ≤ b.content.length ∧ b.content.length ≤ 100000
      · simp_all
        omega
      · simp_all

/-- Claim C5 witness: the amended validation theorem at a concrete body of
one-character content with one-character ids. -/
theorem memorySave_validation_witness :
    validation.memorySaveValid { userId := "u", sessionId := "s", content := "x" } = true :=
  (memorySave_validation_spec { userId := "u", sessionId := "s", content := "x" }
    (by intro i h; cases h) (by intro t h; cases h)).1.mpr (by decide)

/-- One success entry of the bulk save response
(memoryController.js lines 308 to 314). -/
structure BulkItemResult where
  index : Nat
  memoryId : Nat
deriving Repr, DecidableEq

/-- One error entry of the bulk save response
(memoryController.js lines 317 to 322). -/
structure BulkItemError where
  index : Nat
  message : String
deriving Repr, DecidableEq

/-- The summary object of the bulk save response
(memoryController.js lines 330 to 334). -/
structure BulkSummary where
  total : Nat
  successful : Nat
  failed : Nat
deriving Repr, DecidableEq

/-- The bulk save response (memoryController.js lines 326 to 337). -/
structure BulkResponse where
  results : List BulkItemResult
  errors : List BulkItemError
  summary : BulkSummary
deriving Repr, DecidableEq

namespace memoryController

/-- The for-loop of bulkSaveMemories (memoryController.js lines 296 to
324): the memories are attempted one at a time in input order; a success
pushes an entry onto results and a failure pushes one onto errors, the
per-item try-catch keeping one failure from stopping the loop.  The
outcome of the save attempt at each index is abstracted as the function
argument, since the bridge call can succeed or throw. -/
def bulkLoop (save : Nat → SaveBody → Except String Nat) :
    Nat → List SaveBody → List BulkItemResult × List BulkItemError
  | _, [] => ([], [])
  | i, m :: rest =>
    match save i m with
    | .ok memoryId =>
      let r := bulkLoop save (i + 1) rest
      (⟨i, memoryId⟩ :: r.1, r.2)
    | .error e =>
      let r := bulkLoop save (i + 1) rest
      (r.1, ⟨i, e⟩ :: r.2)

/-- bulkSaveMemories (memoryController.js lines 287 to 357): runs the loop
from index zero and reports total, successful and failed counts. -/
def bulkSaveMemories (save : Nat → SaveBody → Except String Nat)
    (memories : List SaveBody) : BulkResponse :=
  let r := bulkLoop save 0 memories
  { results := r.1
    errors := r.2
    summary :=
      { total := memories.length
        successful := r.1.length
        failed := r.2.length } }

end memoryController

/-- The indices of the bulk loop's results are the indices at which the
save attempt succeeds, in input order. -/
theorem bulkLoop_indices (save : Nat → SaveBody → Except String Nat) :
    ∀ (memories : List SaveBody) (i : Nat),
      (memoryController.bulkLoop save i memories).1.map BulkItemResult.index
          = ((memories.enumFrom i).filter fun p => (save p.1 p.2).isOk).map Prod.fst
      ∧ (memoryController.bulkLoop save i memories).2.map BulkItemError.index
          = ((memories.enumFrom i).filter fun p => !(save p.1 p.2).isOk).map Prod.fst
      ∧ (memoryController.bulkLoop save i memories).1.length
          + (memoryController.bulkLoop save i memories).2.length = memories.length := by
  intro memories
  induction memories with
  | nil => intro i; simp [memoryController.bulkLoop]
  | cons m rest ih =>
    intro i
    obtain ⟨ih1, ih2, ih3⟩ := ih (i + 1)
    rcases h : save i m with e | v <;>
      [ exact ⟨by simpa [memoryController.bulkLoop, h, Except.isOk, Except.toBool] using ih1,
          by simpa [memoryController.bulkLoop, h, Except.isOk, Except.toBool] using ih2,
          by simp [memoryController.bulkLoop, h]; omega⟩;
        exact ⟨by simpa [memoryController.bulkLoop, h, Except.isOk, Except.toBool] using ih1,
          by simpa [memoryController.bulkLoop, h, Except.isOk, Except.toBool] using ih2,
          by simp [memoryController.bulkLoop, h]; omega⟩ ]

/-- Claim C10: bulk save attempts the memories in input order; the result
and error index lists are exactly the succeeding and failing positions of
the input enumeration, so every input index appears exactly once across
the two lists, and the summary satisfies total equals successful plus
failed equals the number of input memories. -/
theorem bulkSaveMemories_spec (save : Nat → SaveBody → Except String Nat)
    (memories : List SaveBody) :
    (memoryController.bulkSaveMemories save memories).summary.total = memories.length
    ∧ (memoryController.bulkSaveMemories save memories).summary.successful
        = (memoryController.bulkSaveMemories save memories).results.length
    ∧ (memoryController.bulkSaveMemories save memories).summary.failed
        = (memoryController.bulkSaveMemories save memories).errors.length
    ∧ (memoryController.bulkSaveMemories save memories).results.length
        + (memoryController.bulkSaveMemories save memories).errors.length
        = memories.length
    ∧ (memoryController.bulkSaveMemories save memories).results.map BulkItemResult.index
        = ((memories.enum.filter fun p => (save p.1 p.2).isOk).map Prod.fst)
    ∧ (memoryController.bulkSaveMemories save memories).errors.map BulkItemError.index
        = ((memories.enum.filter fun p => !(save p.1 p.2).isOk).map Prod.fst) := by
  have h := bulkLoop_indices save memories 0
  refine ⟨rfl, rfl, rfl, h.2.2, ?_, ?_⟩
  · simpa [memoryController.bulkSaveMemories, List.enum] using h.1
  · simpa [memoryController.bulkSaveMemories, List.enum] using h.2.1

/-- What one HTTP attempt of the SDK can produce (sdk, src/unnamed/part_001
lines 394 to 482): a response with ok set, a response whose status raises a
MindCacheError carrying that status, an aborted fetch raising a
MindCacheError with status 0, or a network error carrying no status. -/
inductive AttemptOutcome
  | ok
  | errStatus (status : Nat)
  | timeoutAbort
  | networkErr
deriving Repr, DecidableEq

/-- What the SDK request loop is observed to do: whether it succeeded, the
status of the error it finally surfaced (none for success or a status-free
network error), how many attempts were made, and the backoff delays it
slept between attempts. -/
structure RequestTrace where
  succeeded : Bool
  finalStatus : Option Nat
  attempts : Nat
  delays : List Nat
deriving Repr, DecidableEq

/-- The status field the SDK's catch block reads off each failure: an HTTP
error carries its status, an aborted fetch carries 0, a network error
carries none. -/
def attemptStatus : AttemptOutcome → Option Nat
  | .ok => none
  | .errStatus s => some s
  | .timeoutAbort => some 0
  | .networkErr => none

/-- The SDK's no-retry test (part_001 line 441): error.status truthy and in
the client-error range 400 to 499; status 0 is falsy in JavaScript and a
missing status fails the test, so both are retried. -/
def isClientError : Option Nat → Bool
  | none => false
  | some s => decide (s ≠ 0) && decide (400 ≤ s) && decide (s < 500)

/-- The backoff delay the SDK sleeps after a failed attempt (part_001 line
447): the minimum of 1000 times 2 to the attempt minus 1, and 10000,
milliseconds. -/
def retryDelay (attempt : Nat) : Nat :=
  min (1000 * 2 ^ (attempt - 1)) 10000

namespace MindCacheSDK

/-- The attempt loop of MindCacheSDK.request (part_001 lines 410 to 452),
unrolled on the number of remaining attempts: a success returns at once; a
client-error failure breaks out and surfaces; any other failure sleeps the
backoff delay and retries while attempts remain, the last error surfacing
when they run out. -/
def requestLoop (outcome : Nat → AttemptOutcome) (retries : Nat) :
    Nat → Nat → List Nat → RequestTrace
  | 0, attempt, delays => ⟨false, none, attempt - 1, delays⟩
  | fuel + 1, attempt, delays =>
    match outcome attempt with
    | .ok => ⟨true, none, attempt, delays⟩
    | o =>
      if isClientError (attemptStatus o) then ⟨false, attemptStatus o, attempt, delays⟩
      else if attempt < retries then
        requestLoop outcome retries fuel (attempt + 1) (delays ++ [retryDelay attempt])
      else ⟨false, attemptStatus o, attempt, delays⟩

/-- MindCacheSDK.request: runs the attempt loop from attempt 1 with the
configured retry budget (the SDK default is 3 total attempts, part_001
line 13). -/
def request (outcome : Nat → AttemptOutcome) (retries : Nat) : RequestTrace :=
  requestLoop outcome retries retries 1 []

end MindCacheSDK

/-- Claim C9: a server-side Io failure, surfaced over HTTP as status 500,
is attempted three times with backoff delays of 1000 and 2000 milliseconds
before the error surfaces, not retried once with delays of 50 and 200
milliseconds; and a client-side timeout, which carries status 0, is also
retried rather than surfaced verbatim. -/
theorem sdk_request_io_retry_counterexample :
    MindCacheSDK.request (fun _ => .errStatus 500) 3
      = ⟨false, some 500, 3, [1000, 2000]⟩
    ∧ ([1000, 2000] ≠ [50, 200] ∧ (3 : Nat) ≠ 2)
    ∧ MindCacheSDK.request (fun _ => .timeoutAbort) 3
      = ⟨false, some 0, 3, [1000, 2000]⟩ := by
  refine ⟨rfl, by decide, rfl⟩

/-- Claim C9, amended: with the default budget of 3 attempts, a failure
whose HTTP status lies in 400 to 499 (the transport encoding of
InvalidArgument, NotFound, Forbidden, Conflict, TooLarge and SessionEmpty)
surfaces after a single attempt with no retry and no delay, while attempts
that keep failing with a server error, a network error or a client-side
timeout are made three times with backoff delays of 1000 then 2000
milliseconds before the last error surfaces. -/
theorem sdk_request_retry_policy (outcome : Nat → AttemptOutcome) (s : Nat)
    (h4 : 400 ≤ s) (h5 : s < 500) :
    ((outcome 1 = .errStatus s) →
      MindCacheSDK.request outcome 3 = ⟨false, some s, 1, []⟩)
    ∧ ((∀ k, 1 ≤ k → k ≤ 3 → outcome k = .errStatus 500 ∨ outcome k = .timeoutAbort
          ∨ outcome k = .networkErr) →
        (MindCacheSDK.request outcome 3).succeeded = false
        ∧ (MindCacheSDK.request outcome 3).attempts = 3
        ∧ (MindCacheSDK.request outcome 3).delays = [1000, 2000]) := by
  constructor
  · intro h1
    have hce : isClientError (some s) = true := by
      simp [isClientError]
      omega
    simp [MindCacheSDK.request, MindCacheSDK.requestLoop, h1, attemptStatus, hce]
  · intro hall
    have h1 := hall 1 (by omega) (by omega)
    have h2 := hall 2 (by omega) (by omega)
    have h3 := hall 3 (by omega) (by omega)
    have hr : ∀ o, o = AttemptOutcome.errStatus 500 ∨ o = .timeoutAbort ∨ o = .networkErr →
        isClientError (attemptStatus o) = false ∧ o ≠ .ok := by
      rintro o (rfl | rfl | rfl) <;> exact ⟨by decide, by decide⟩
    obtain ⟨hc1, hk1⟩ := hr _ h1
    obtain ⟨hc2, hk2⟩ := hr _ h2
    obtain ⟨hc3, hk3⟩ := hr _ h3
    rcases ho1 : outcome 1 with _ | s1 | _ | _ <;> rw [ho1] at hk1 hc1 <;>
      try exact absurd rfl hk1
    all_goals rcases ho2 : outcome 2 with _ | s2 | _ | _ <;> rw [ho2] at hk2 hc2 <;>
      try exact absurd rfl hk2
    all_goals rcases ho3 : outcome 3 with _ | s3 | _ | _ <;> rw [ho3] at hk3 hc3 <;>
      try exact absurd rfl hk3
    all_goals
      simp [MindCacheSDK.request, MindCacheSDK.requestLoop, ho1, ho2, ho3, hc1, hc2, hc3,
        retryDelay]

/-- Claim C9 witness: the retry-policy theorem at concrete outcomes, a 404
surfacing with no retry and a persistent 500 exhausting three attempts
with delays 1000 and 2000. -/
theorem sdk_request_retry_policy_witness :
    MindCacheSDK.request (fun _ => .errStatus 404) 3 = ⟨false, some 404, 1, []⟩
    ∧ (MindCacheSDK.request (fun _ => .errStatus 500) 3).delays = [1000, 2000] :=
  ⟨(sdk_request_retry_policy (fun _ => .errStatus 404) 404 (by decide) (by decide)).1 rfl,
    ((sdk_request_retry_policy (fun _ => .errStatus 500) 404 (by decide) (by decide)).2
      (fun k _ _ => Or.inl rfl)).2.2⟩

/-- The request id the validateRequest middleware attaches to each request
(validateRequest.js lines 34 to 36): a concatenation of a random base-36
string and the clock in base 36, generated server-side on every request
and used only for logging. -/
def generateRequestId (rand36 time36 : String) : String :=
  rand36 ++ time36

/-- The save endpoint with the request id the middleware attached: no
controller or bridge code reads the request id (memoryController.saveMemory
never mentions req.id), so the handler ignores it. -/
def saveEndpoint (cfg : Config) (now : Nat) (_requestId : String)
    (st : StoreState) (b : SaveBody) : SaveResult :=
  memoryController.saveMemory cfg now st b

/-- The save body used twice in the claim-C6 counterexample. -/
def repeatedSaveBody : SaveBody :=
  { userId := "u1", sessionId := "s1", content := "remember this" }

/-- The memory stored by the first of the two identical saves. -/
def firstSavedMemory : Memory :=
  { id := 0
    userId := "u1"
    sessionId := "s1"
    content := "remember this"
    metadata := "\x7b\x7d"
    importance := mkRat 1 2
    timestamp := 1000
    expiresAt := some (1000 + 720 * 3600000) }

/-- The memory stored by the second of the two identical saves. -/
def secondSavedMemory : Memory :=
  { firstSavedMemory with id := 1 }

/-- The store after the first of the two identical saves. -/
def storeAfterFirstSave : StoreState :=
  { nextId := 1, memories := [firstSavedMemory] }

/-- The store after the second of the two identical saves. -/
def storeAfterSecondSave : StoreState :=
  { nextId := 2, memories := [firstSavedMemory, secondSavedMemory] }

/-- Claim C6: running the same save twice with the same request id does
not deduplicate: the ids differ (0 then 1) and the second call appends a
second durable record, because the request id never crosses the FFI
boundary (mindcache_save takes only user, session, content and metadata)
and no deduplication window exists in the transport code. -/
theorem save_same_request_id_not_deduplicated :
    saveEndpoint {} 1000 (generateRequestId "abc123xyz" "t0") { nextId := 0, memories := [] }
        repeatedSaveBody
      = .saved storeAfterFirstSave 0
    ∧ saveEndpoint {} 1000 (generateRequestId "abc123xyz" "t0") storeAfterFirstSave
        repeatedSaveBody
      = .saved storeAfterSecondSave 1
    ∧ (1 : Nat) ≠ 0
    ∧ storeAfterSecondSave.memories.length = 2 := by
  refine ⟨rfl, rfl, by decide, rfl⟩

/-- Claim C6, amended: request ids are generated server-side per request
for logging only and never reach the core, so the save endpoint's result
does not depend on the request id at all, and re-running a save with any
request ids appends a fresh record with a fresh id each time instead of
deduplicating. -/
theorem saveEndpoint_requestId_spec (cfg : Config) (now : Nat)
    (rid rid2 : String) (st : StoreState) (b : SaveBody)
    (h : jsIsBlank b.sessionId = false) :
    saveEndpoint cfg now rid st b = saveEndpoint cfg now rid2 st b
    ∧ ∃ st1 st2 : StoreState,
        saveEndpoint cfg now rid st b = .saved st1 st.nextId
        ∧ saveEndpoint cfg now rid2 st1 b = .saved st2 (st.nextId + 1)
        ∧ st.nextId + 1 ≠ st.nextId
        ∧ st1.memories.length = st.memories.length + 1
        ∧ st2.memories.length = st.memories.length + 2 := by
  refine ⟨rfl, ?_⟩
  simp only [saveEndpoint, memoryController.saveMemory, h, Bool.false_eq_true,
    if_false, RustBridge.saveMemory, mindcache_save]
  exact ⟨_, _, rfl, rfl, by omega, by simp, by simp⟩

/-- Claim C6 witness: the amended theorem at the concrete repeated save
body, two distinct request ids and the empty store. -/
theorem saveEndpoint_requestId_witness :
    saveEndpoint {} 1000 "ridA" { nextId := 0, memories := [] } repeatedSaveBody
      = saveEndpoint {} 1000 "ridB" { nextId := 0, memories := [] } repeatedSaveBody :=
  (saveEndpoint_requestId_spec {} 1000 "ridA" "ridB" { nextId := 0, memories := [] }
    repeatedSaveBody (by decide)).1

/-- The session object RustBridge.getSession reconstructs
(src/unnamed/part_000 lines 414 to 423); the name, tags and metadata
fields it hard-codes are omitted. -/
structure SessionView where
  id : String
  userId : String
  createdAt : Option Nat
  lastActive : Option Nat
  memoryCount : Nat
deriving Repr, DecidableEq

namespace RustBridge

/-- RustBridge.getSession (src/unnamed/part_000 lines 396 to 430): recalls
a single memory of the session with no user id to find the owner, then
recalls up to 10000 of the owner's memories in the session; createdAt is
the last returned element's timestamp, lastActive the first, and
memoryCount the number returned. -/
def getSession (store : List Memory) (sessionId : String) : Option SessionView :=
  match mindcache_recall store none none (some sessionId) 1 with
  | [] => none
  | m :: _ =>
    let allMemories := mindcache_recall store (some m.userId) none (some sessionId) 10000
    some { id := sessionId
           userId := m.userId
           createdAt := allMemories.getLast?.map Memory.timestamp
           lastActive := allMemories.head?.map Memory.timestamp
           memoryCount := allMemories.length }

/-- RustBridge.deleteSession (src/unnamed/part_000 lines 520 to 535): a
placeholder that looks the session up and returns its memory count as
memoriesDeleted without deleting anything; the store is returned unchanged
because the bridge performs no write, and none models the thrown
Session-not-found error. -/
def deleteSession (store : List Memory) (sessionId : String) :
    Option (List Memory × Nat) :=
  (getSession store sessionId).map fun s => (store, s.memoryCount)

end RustBridge

/-- The outcome of the delete-session controller, paired below with the
store the system is left with. -/
inductive DeleteSessionOutcome
  | confirmationRequired
  | notFound
  | accessDenied
  | deleted (memoriesDeleted : Nat)
  | deleteError
deriving Repr, DecidableEq

namespace sessionController

/-- sessionController.deleteSession (sessionController.js lines 278 to
344): requires the confirm flag, returns the not-found error when the
session has no memories, the access-denied error when the session's owner
differs from the requesting user, and otherwise reports the bridge's
deletion result.  The function returns the resulting store alongside the
outcome; every path leaves it unchanged because the bridge deletion is a
placeholder. -/
def deleteSession (store : List Memory) (userId sessionId : String)
    (confirm : Bool) : DeleteSessionOutcome × List Memory :=
  if !confirm then (.confirmationRequired, store)
  else
    match RustBridge.getSession store sessionId with
    | none => (.notFound, store)
    | some s =>
      if s.userId != userId then (.accessDenied, store)
      else
        match RustBridge.deleteSession store sessionId with
        | some r => (.deleted r.2, r.1)
        | none => (.deleteError, store)

end sessionController

/-- The first memory of the two-memory session used by the claim-C3
counterexample. -/
def sessionMemoryOne : Memory :=
  { id := 0
    userId := "u1"
    sessionId := "s1"
    content := "first note"
    metadata := "\x7b\x7d"
    importance := mkRat 1 2
    timestamp := 100
    expiresAt := none }

/-- The second memory of the two-memory session used by the claim-C3
counterexample. -/
def sessionMemoryTwo : Memory :=
  { sessionMemoryOne with id := 1, content := "second note", timestamp := 200 }

/-- The concrete store holding one session of two memories. -/
def twoMemorySessionStore : List Memory :=
  [sessionMemoryOne, sessionMemoryTwo]

/-- Claim C3: deleting the two-memory session reports memories_deleted 2
but removes nothing: the bridge's placeholder returns the store unchanged,
and a subsequent recall still returns both memories of the session. -/
theorem deleteSession_deletes_nothing :
    RustBridge.deleteSession twoMemorySessionStore "s1"
      = some (twoMemorySessionStore, 2)
    ∧ sessionController.deleteSession twoMemorySessionStore "u1" "s1" true
      = (.deleted 2, twoMemorySessionStore)
    ∧ memoryController.recallMemories twoMemorySessionStore
        { userId := "u1", sessionId := some "s1" }
      = [sessionMemoryOne, sessionMemoryTwo]
    ∧ ([sessionMemoryOne, sessionMemoryTwo] : List Memory) ≠ [] := by
  refine ⟨rfl, rfl, rfl, by decide⟩

/-- A list's first match is the head of its filtering. -/
theorem find?_eq_head?_filter {α : Type} (p : α → Bool) (l : List α) :
    l.find? p = (l.filter p).head? := by
  induction l with
  | nil => rfl
  | cons a l ih =>
    cases h : p a with
    | true => rw [List.find?_cons_of_pos _ h, List.filter_cons_of_pos h, List.head?_cons]
    | false =>
      rw [List.find?_cons_of_neg _ (by simp [h]), List.filter_cons_of_neg (by simp [h]), ih]

/-- Claim C3, amended: on a session that exists, the bridge deletion
returns the store unchanged together with a memories_deleted count equal
to the number of the session owner's memories in the session (the owner
being the first stored memory of the session, and the count capped at the
10000-record recall limit); nothing is removed. -/
theorem deleteSession_placeholder_spec (store : List Memory) (sessionId : String)
    (m0 : Memory) (h : store.find? (fun m => m.sessionId == sessionId) = some m0) :
    RustBridge.deleteSession store sessionId
      = some (store,
          ((store.filter fun m => m.userId == m0.userId && m.sessionId == sessionId).take
              10000).length) := by
  rw [find?_eq_head?_filter] at h
  obtain ⟨tl, htl⟩ : ∃ tl, store.filter (fun m => m.sessionId == sessionId) = m0 :: tl := by
    cases hf : store.filter (fun m => m.sessionId == sessionId) with
    | nil => rw [hf] at h; cases h
    | cons a tl =>
      rw [hf] at h
      simp only [List.head?_cons, Option.some.injEq] at h
      exact ⟨tl, by rw [h]⟩
  have hrec : mindcache_recall store none none (some sessionId) 1
      = (store.filter fun m => m.sessionId == sessionId).take 1 := by
    simp [mindcache_recall]
  simp only [RustBridge.deleteSession, RustBridge.getSession, hrec, htl, List.take_cons,
    List.take_zero, Option.map_some]
  simp [mindcache_recall]

/-- Claim C3 witness: the amended placeholder theorem at the concrete
two-memory session store. -/
theorem deleteSession_placeholder_witness :
    RustBridge.deleteSession twoMemorySessionStore "s1"
      = some (twoMemorySessionStore,
          ((twoMemorySessionStore.filter fun m =>
              m.userId == sessionMemoryOne.userId && m.sessionId == "s1").take 10000).length) :=
  deleteSession_placeholder_spec twoMemorySessionStore "s1" sessionMemoryOne (by decide)

/-- Claim C4: with the confirmation flag set, deleting a session that does
not exist fails with the not-found error, and deleting a session that
exists but whose owner differs from the requesting user fails with the
access-denied error; in both cases the store is returned unchanged. -/
theorem deleteSession_cross_user_policy (store : List Memory)
    (userId sessionId : String) :
    (RustBridge.getSession store sessionId = none →
      sessionController.deleteSession store userId sessionId true = (.notFound, store))
    ∧ (∀ s : SessionView, RustBridge.getSession store sessionId = some s →
        s.userId ≠ userId →
        sessionController.deleteSession store userId sessionId true
          = (.accessDenied, store)) := by
  constructor
  · intro h
    simp [sessionController.deleteSession, h]
  · intro s hs hne
    have hb : (s.userId != userId) = true := by
      simp [bne_iff_ne, hne]
    simp [sessionController.deleteSession, hs, hb]

/-- A memory of user u2 in session s1, for exercising the cross-user
branch of the delete-session controller. -/
def otherUserMemory : Memory :=
  { id := 7
    userId := "u2"
    sessionId := "s1"
    content := "someone else's note"
    metadata := "\x7b\x7d"
    importance := mkRat 1 2
    timestamp := 50
    expiresAt := none }

/-- Claim C4 witness: the policy theorem at a concrete store, showing a
not-found result for an absent session and an access-denied result for a
cross-user request, the store unchanged both times. -/
theorem deleteSession_cross_user_policy_witness :
    sessionController.deleteSession [otherUserMemory] "u1" "missing" true
      = (.notFound, [otherUserMemory])
    ∧ sessionController.deleteSession [otherUserMemory] "u1" "s1" true
      = (.accessDenied, [otherUserMemory]) :=
  ⟨(deleteSession_cross_user_policy [otherUserMemory] "u1" "missing").1 rfl,
    (deleteSession_cross_user_policy [otherUserMemory] "u1" "s1").2
      { id := "s1", userId := "u2", createdAt := some 50, lastActive := some 50
        memoryCount := 1 }
      rfl (by decide)⟩

/-- The digest the summarizer returns (spec section 4.7): count, mean
importance and the time span; the key-topic list and excerpt text are
omitted from the model, as no claim settled here depends on them. -/
structure SessionSummary where
  sessionId : String
  userId : String
  memoryCount : Nat
  importanceScore : Rat
  timeSpanStart : Nat
  timeSpanEnd : Nat
deriving Repr, DecidableEq

/-- Modelled from the spec: the Rust core entry mindcache_summarize is not
among the repository's files; only its FFI declaration is
(src/unnamed/part_000 line 75).  Per spec section 4.7 it loads all
memories of the session and fails when there are none, otherwise
returning the digest.  The Node controller recognizes the empty-session
failure by the text No memories found in the error message
(memoryController.js line 136), so the modelled error message carries
exactly that text. -/
def mindcache_summarize (store : List Memory) (sessionId : String) :
    Except String SessionSummary :=
  match store.filter (fun m => m.sessionId == sessionId) with
  | [] => .error "No memories found for session"
  | m :: rest =>
    .ok { sessionId := sessionId
          userId := m.userId
          memoryCount := rest.length + 1
          importanceScore :=
            ((m :: rest).map Memory.importance).sum / (rest.length + 1 : Rat)
          timeSpanStart := (rest.map Memory.timestamp).foldl Nat.min m.timestamp
          timeSpanEnd := (rest.map Memory.timestamp).foldl Nat.max m.timestamp }

/-- JavaScript String.includes, modelled at the character-list level. -/
def jsIncludes (s target : String) : Bool :=
  decide (List.IsInfix target.data s.data)

namespace RustBridge

/-- RustBridge.summarizeSession (src/unnamed/part_000 lines 248 to 269):
returns the core's summary, wrapping a core failure message in the text
Failed to generate summary. -/
def summarizeSession (store : List Memory) (sessionId : String) :
    Except String SessionSummary :=
  match mindcache_summarize store sessionId with
  | .ok s => .ok s
  | .error e => .error ("Failed to generate summary: " ++ e)

end RustBridge

/-- The outcome of the summarize controller: a summary, the session-empty
error, or the generic summary error. -/
inductive SummarizeOutcome
  | success (summary : SessionSummary)
  | sessionEmpty
  | summaryError (message : String)
deriving Repr, DecidableEq

namespace memoryController

/-- memoryController.summarizeSession (memoryController.js lines 115 to
152): returns the bridge's summary; a failure whose message includes the
text No memories found becomes the session-empty error, any other failure
the generic summary error. -/
def summarizeSession (store : List Memory) (sessionId : String) :
    SummarizeOutcome :=
  match RustBridge.summarizeSession store sessionId with
  | .ok s => .success s
  | .error msg =>
    if jsIncludes msg "No memories found" then .sessionEmpty
    else .summaryError msg

end memoryController

/-- Claim C7: the summarize endpoint reports the session-empty error
exactly when the session holds no memories, and returns a summary for
every non-empty session. -/
theorem summarizeSession_sessionEmpty_iff (store : List Memory) (sessionId : String) :
    (memoryController.summarizeSession store sessionId = .sessionEmpty
      ↔ store.filter (fun m => m.sessionId == sessionId) = [])
    ∧ (store.filter (fun m => m.sessionId == sessionId) ≠ [] →
        ∃ s, memoryController.summarizeSession store sessionId = .success s) := by
  have hinc : jsIncludes "Failed to generate summary: No memories found for session"
      "No memories found" = true := by decide
  cases hf : store.filter (fun m => m.sessionId == sessionId) with
  | nil =>
    constructor
    · simp [memoryController.summarizeSession, RustBridge.summarizeSession,
        mindcache_summarize, hf, hinc]
    · intro h
      exact absurd rfl h
  | cons m rest =>
    constructor
    · simp [memoryController.summarizeSession, RustBridge.summarizeSession,
        mindcache_summarize, hf]
    · intro _
      cases hs : RustBridge.summarizeSession store sessionId with
      | ok s => exact ⟨s, by simp [memoryController.summarizeSession, hs]⟩
      | error e =>
        exfalso
        simp [RustBridge.summarizeSession, mindcache_summarize, hf] at hs

/-- The session record getUserSessions accumulates per distinct session id
(src/unnamed/part_000 lines 356 to 366); the name, tags and metadata
fields it hard-codes to null are omitted. -/
structure SessionInfo where
  id : String
  userId : String
  createdAt : Nat
  lastActive : Nat
  memoryCount : Nat
deriving Repr, DecidableEq

/-- The fresh entry the getUserSessions loop inserts for a session id not
seen before (src/unnamed/part_000 lines 357 to 366): both timestamps start
at the memory's timestamp and the count at zero. -/
def newSessionEntry (m : Memory) : SessionInfo :=
  { id := m.sessionId, userId := m.userId, createdAt := m.timestamp,
    lastActive := m.timestamp, memoryCount := 0 }

/-- The insertion branch of the loop body of getUserSessions
(src/unnamed/part_000 lines 355 to 367): when the session id has no entry
yet, a fresh entry is appended. -/
def ensureSession (sessions : List SessionInfo) (m : Memory) : List SessionInfo :=
  if sessions.any (fun s => s.id == m.sessionId) then sessions
  else sessions ++ [newSessionEntry m]

/-- The second half of the loop body (src/unnamed/part_000 lines 369 to
380): the matching entry's count is incremented, lastActive is raised to
the memory's timestamp when that is later, and createdAt is lowered when
it is earlier. -/
def bumpSession (s : SessionInfo) (m : Memory) : SessionInfo :=
  let s1 : SessionInfo := { s with memoryCount := s.memoryCount + 1 }
  let s2 : SessionInfo :=
    if s1.lastActive < m.timestamp then { s1 with lastActive := m.timestamp } else s1
  if m.timestamp < s2.createdAt then { s2 with createdAt := m.timestamp } else s2

/-- One iteration of the getUserSessions grouping loop. -/
def addMemoryToSessions (sessions : List SessionInfo) (m : Memory) : List SessionInfo :=
  (ensureSession sessions m).map fun s =>
    if s.id == m.sessionId then bumpSession s m else s

/-- The grouping getUserSessions performs over the recalled memories, in
recall order. -/
def groupSessions (memories : List Memory) : List SessionInfo :=
  memories.foldl addMemoryToSessions []

namespace RustBridge

/-- RustBridge.getUserSessions (src/unnamed/part_000 lines 345 to 391):
recalls up to 10000 of the user's memories and groups them by session
id. -/
def getUserSessions (store : List Memory) (userId : String) : List SessionInfo :=
  groupSessions (recallMemories store { userId := some userId, limit := 10000 })

end RustBridge

/-- Bumping an entry leaves its id unchanged. -/
theorem bumpSession_id (s : SessionInfo) (m : Memory) : (bumpSession s m).id = s.id := by
  unfold bumpSession
  by_cases h1 : s.lastActive < m.timestamp <;>
    by_cases h2 : m.timestamp < s.createdAt <;> simp [h1, h2]

/-- Bumping an entry increments its count. -/
theorem bumpSession_memoryCount (s : SessionInfo) (m : Memory) :
    (bumpSession s m).memoryCount = s.memoryCount + 1 := by
  unfold bumpSession
  by_cases h1 : s.lastActive < m.timestamp <;>
    by_cases h2 : m.timestamp < s.createdAt <;> simp [h1, h2]

/-- Bumping an entry lowers createdAt to the memory's timestamp exactly
when that is earlier. -/
theorem bumpSession_createdAt (s : SessionInfo) (m : Memory) :
    (bumpSession s m).createdAt =
      if m.timestamp < s.createdAt then m.timestamp else s.createdAt := by
  unfold bumpSession
  by_cases h1 : s.lastActive < m.timestamp <;>
    by_cases h2 : m.timestamp < s.createdAt <;> simp [h1, h2]

/-- Bumping an entry raises lastActive to the memory's timestamp exactly
when that is later. -/
theorem bumpSession_lastActive (s : SessionInfo) (m : Memory) :
    (bumpSession s m).lastActive =
      if s.lastActive < m.timestamp then m.timestamp else s.lastActive := by
  unfold bumpSession
  by_cases h1 : s.lastActive < m.timestamp <;>
    by_cases h2 : m.timestamp < s.createdAt <;> simp [h1, h2]

/-- The grouping yields exactly one entry per session id occurring among
the memories and none for any other id. -/
theorem groupSessions_count (ms : List Memory) :
    ∀ sid : String, (groupSessions ms).countP (fun s => s.id == sid)
      = if ms.any (fun m => m.sessionId == sid) then 1 else 0 := by
  induction ms using List.reverseRecOn with
  | nil => intro sid; simp [groupSessions]
  | append_singleton ms m ih =>
    intro sid
    have hstep : groupSessions (ms ++ [m]) = addMemoryToSessions (groupSessions ms) m := by
      simp [groupSessions]
    have hmapcount : ∀ (l : List SessionInfo),
        (l.map fun s => if s.id == m.sessionId then bumpSession s m else s).countP
            (fun s => s.id == sid)
          = l.countP (fun s => s.id == sid) := by
      intro l
      rw [List.countP_map]
      apply List.countP_congr
      intro s _
      by_cases h : s.id = m.sessionId
      · simp [beq_iff_eq, h, bumpSession_id]
      · simp [beq_iff_eq, h]
    rw [hstep]
    unfold addMemoryToSessions ensureSession
    by_cases hany : (groupSessions ms).any (fun s => s.id == m.sessionId)
    · rw [if_pos hany, hmapcount, ih sid]
      by_cases hsid : m.sessionId = sid
      · subst hsid
        have hpos : 0 < (groupSessions ms).countP (fun s => s.id == m.sessionId) := by
          rw [List.countP_pos_iff]
          obtain ⟨s, hs, hps⟩ := List.any_eq_true.mp hany
          exact ⟨s, hs, hps⟩
        rw [ih m.sessionId] at hpos
        by_cases hms : ms.any (fun x => x.sessionId == m.sessionId)
        · simp [hms]
        · rw [if_neg hms] at hpos
          exact absurd hpos (by decide)
      · have hm : (m.sessionId == sid) = false := by
          simp [hsid]
        simp [List.any_append, hm]
    · rw [if_neg hany, List.map_append, List.countP_append, hmapcount]
      have hzero : (groupSessions ms).countP (fun s => s.id == m.sessionId) = 0 := by
        rw [List.countP_eq_zero]
        intro s hs
        intro hps
        exact hany (List.any_eq_true.mpr ⟨s, hs, hps⟩)
      have hnoms : ms.any (fun x => x.sessionId == m.sessionId) = false := by
        have := (ih m.sessionId)
        rw [hzero] at this
        by_cases hms : ms.any (fun x => x.sessionId == m.sessionId)
        · rw [if_pos hms] at this
          exact absurd this.symm (by decide)
        · exact Bool.not_eq_true _ ▸ (by simpa using hms)
      by_cases hsid : m.sessionId = sid
      · subst hsid
        rw [ih m.sessionId, hnoms]
        simp [bumpSession_id, newSessionEntry]
      · have hm : (m.sessionId == sid) = false := by
          simp [hsid]
        rw [ih sid]
        simp [List.any_append, hm, bumpSession_id, hsid, newSessionEntry]

/-- A session id has a grouped entry exactly when it occurs among the
memories. -/
theorem groupSessions_any_iff (ms : List Memory) (sid : String) :
    (groupSessions ms).any (fun s => s.id == sid)
      = ms.any (fun m => m.sessionId == sid) := by
  have h := groupSessions_count ms sid
  by_cases hms : ms.any (fun m => m.sessionId == sid)
  · rw [if_pos hms] at h
    rw [hms]
    have hpos : 0 < (groupSessions ms).countP (fun s => s.id == sid) := by
      rw [h]
      decide
    obtain ⟨s, hsmem, hsp⟩ := List.countP_pos_iff.mp hpos
    exact List.any_eq_true.mpr ⟨s, hsmem, hsp⟩
  · rw [if_neg hms] at h
    have hfalse : ms.any (fun m => m.sessionId == sid) = false := by
      simpa using hms
    rw [hfalse]
    rw [List.any_eq_false]
    intro s hsmem hsp
    have := List.countP_eq_zero.mp h s hsmem
    exact this hsp

/-- The statistics a grouped session entry must satisfy relative to the
memory list it was folded from: its count is the number of member
memories, createdAt is the least member timestamp and lastActive the
greatest. -/
def sessionStatsOk (ms : List Memory) (s : SessionInfo) : Prop :=
  s.memoryCount = (ms.filter fun m => m.sessionId == s.id).length
  ∧ s.createdAt ∈ (ms.filter fun m => m.sessionId == s.id).map Memory.timestamp
  ∧ (∀ t ∈ (ms.filter fun m => m.sessionId == s.id).map Memory.timestamp, s.createdAt ≤ t)
  ∧ s.lastActive ∈ (ms.filter fun m => m.sessionId == s.id).map Memory.timestamp
  ∧ (∀ t ∈ (ms.filter fun m => m.sessionId == s.id).map Memory.timestamp, t ≤ s.lastActive)

/-- Every grouped entry carries the member count, minimum timestamp and
maximum timestamp of its session's memories. -/
theorem groupSessions_stats (ms : List Memory) :
    ∀ s ∈ groupSessions ms, sessionStatsOk ms s := by
  induction ms using List.reverseRecOn with
  | nil =>
    intro s hs
    simp [groupSessions] at hs
  | append_singleton ms m ih =>
    have hstep : groupSessions (ms ++ [m]) = addMemoryToSessions (groupSessions ms) m := by
      simp [groupSessions]
    have huntouched : ∀ a ∈ groupSessions ms, (m.sessionId == a.id) = false →
        sessionStatsOk (ms ++ [m]) a := by
      intro a ha hne
      have hfilter : (ms ++ [m]).filter (fun x => x.sessionId == a.id)
          = ms.filter (fun x => x.sessionId == a.id) := by
        rw [List.filter_append]
        simp [hne]
      unfold sessionStatsOk
      rw [hfilter]
      exact ih a ha
    have hbumped : ∀ a ∈ groupSessions ms, a.id = m.sessionId →
        sessionStatsOk (ms ++ [m]) (bumpSession a m) := by
      intro a ha hid
      obtain ⟨hc, hcm, hcb, ham, hab⟩ := ih a ha
      have hfilter : (ms ++ [m]).filter (fun x => x.sessionId == (bumpSession a m).id)
          = ms.filter (fun x => x.sessionId == a.id) ++ [m] := by
        rw [bumpSession_id, List.filter_append]
        simp [beq_iff_eq, hid]
      unfold sessionStatsOk
      rw [hfilter, bumpSession_memoryCount, bumpSession_createdAt, bumpSession_lastActive]
      refine ⟨?_, ?_, ?_, ?_, ?_⟩
      · rw [List.length_append, hc]
        simp
      · rw [List.map_append]
        by_cases hlt : m.timestamp < a.createdAt
        · rw [if_pos hlt]
          exact List.mem_append_right _ (by simp)
        · rw [if_neg hlt]
          exact List.mem_append_left _ hcm
      · intro t ht
        rw [List.map_append] at ht
        rcases List.mem_append.mp ht with h | h
        · by_cases hlt : m.timestamp < a.createdAt
          · rw [if_pos hlt]
            exact le_trans (le_of_lt hlt) (hcb t h)
          · rw [if_neg hlt]
            exact hcb t h
        · simp only [List.map_cons, List.map_nil, List.mem_singleton] at h
          subst h
          by_cases hlt : m.timestamp < a.createdAt
          · rw [if_pos hlt]
          · rw [if_neg hlt]
            omega
      · rw [List.map_append]
        by_cases hlt : a.lastActive < m.timestamp
        · rw [if_pos hlt]
          exact List.mem_append_right _ (by simp)
        · rw [if_neg hlt]
          exact List.mem_append_left _ ham
      · intro t ht
        rw [List.map_append] at ht
        rcases List.mem_append.mp ht with h | h
        · by_cases hlt : a.lastActive < m.timestamp
          · rw [if_pos hlt]
            exact le_trans (hab t h) (le_of_lt hlt)
          · rw [if_neg hlt]
            exact hab t h
        · simp only [List.map_cons, List.map_nil, List.mem_singleton] at h
          subst h
          by_cases hlt : a.lastActive < m.timestamp
          · rw [if_pos hlt]
          · rw [if_neg hlt]
            omega
    intro s hs
    rw [hstep] at hs
    unfold addMemoryToSessions ensureSession at hs
    by_cases hany : (groupSessions ms).any (fun x => x.id == m.sessionId)
    · rw [if_pos hany] at hs
      obtain ⟨a, ha, rfl⟩ := List.mem_map.mp hs
      by_cases hid : a.id = m.sessionId
      · have htrue : (a.id == m.sessionId) = true := by
          simp [beq_iff_eq, hid]
        rw [if_pos htrue]
        exact hbumped a ha hid
      · have hfalse : (a.id == m.sessionId) = false := by
          simp [beq_iff_eq, hid]
        rw [if_neg (by simp [hfalse])]
        refine huntouched a ha ?_
        simp [beq_iff_eq]
        intro hh
        exact hid hh.symm
    · rw [if_neg hany, List.map_append] at hs
      rcases List.mem_append.mp hs with hs1 | hs2
      · obtain ⟨a, ha, rfl⟩ := List.mem_map.mp hs1
        have hfalse : (a.id == m.sessionId) = false := by
          by_cases hx : (a.id == m.sessionId) = true
          · exact absurd (List.any_eq_true.mpr ⟨a, ha, hx⟩) hany
          · simpa using hx
        rw [if_neg (by simp [hfalse])]
        refine huntouched a ha ?_
        simp only [beq_iff_eq] at hfalse ⊢
        simp only [beq_eq_false_iff_ne, ne_eq] at hfalse ⊢
        intro hh
        exact hfalse hh.symm
      · simp only [List.map_cons, List.map_nil, List.mem_singleton] at hs2
        subst hs2
        have hnoms : ms.any (fun x => x.sessionId == m.sessionId) = false := by
          rw [← groupSessions_any_iff]
          simpa using hany
        have hfe : ms.filter (fun x => x.sessionId == m.sessionId) = [] := by
          rw [List.filter_eq_nil_iff]
          intro x hx
          have := List.any_eq_false.mp hnoms x hx
          simpa using this
        have htrue : ((newSessionEntry m).id == m.sessionId) = true := by
          simp [newSessionEntry]
        rw [if_pos htrue]
        have hfields : bumpSession (newSessionEntry m) m
            = { id := m.sessionId, userId := m.userId, createdAt := m.timestamp,
                lastActive := m.timestamp, memoryCount := 1 } := by
          unfold bumpSession newSessionEntry
          simp
        rw [hfields]
        unfold sessionStatsOk
        have hfilter : (ms ++ [m]).filter (fun x => x.sessionId == m.sessionId) = [m] := by
          rw [List.filter_append, hfe]
          simp
        simp only [hfilter]
        refine ⟨by simp, by simp, ?_, by simp, ?_⟩
        · intro t ht
          simp only [List.map_cons, List.map_nil, List.mem_singleton] at ht
          omega
        · intro t ht
          simp only [List.map_cons, List.map_nil, List.mem_singleton] at ht
          omega

/-- Claim C8: for a user whose store holds at most the 10000 memories the
listing recalls, getUserSessions returns exactly one entry per distinct
session id among that user's memories and none for any other id, and each
entry's memory count, createdAt and lastActive are the member count,
minimum member timestamp and maximum member timestamp of that session. -/
theorem getUserSessions_spec (store : List Memory) (userId : String)
    (hle : (store.filter fun m => m.userId == userId).length ≤ 10000) :
    (∀ sid : String,
      (RustBridge.getUserSessions store userId).countP (fun s => s.id == sid)
        = if (store.filter fun m => m.userId == userId).any (fun m => m.sessionId == sid)
          then 1 else 0)
    ∧ ∀ s ∈ RustBridge.getUserSessions store userId,
        sessionStatsOk (store.filter fun m => m.userId == userId) s := by
  have hrec : RustBridge.recallMemories store { userId := some userId, limit := 10000 }
      = store.filter fun m => m.userId == userId := by
    simp only [RustBridge.recallMemories, mindcache_recall, Bool.and_true]
    exact List.take_of_length_le hle
  have hgs : RustBridge.getUserSessions store userId
      = groupSessions (store.filter fun m => m.userId == userId) := by
    rw [RustBridge.getUserSessions, hrec]
  rw [hgs]
  exact ⟨groupSessions_count _, groupSessions_stats _⟩

/-- A three-memory store for exercising the session listing: two memories
of user u1 in session s1, one in session s2. -/
def listingDemoStore : List Memory :=
  [{ id := 0, userId := "u1", sessionId := "s1", content := "first",
     metadata := "\x7b\x7d", importance := mkRat 1 2, timestamp := 100, expiresAt := none },
   { id := 1, userId := "u1", sessionId := "s1", content := "second",
     metadata := "\x7b\x7d", importance := mkRat 1 2, timestamp := 300, expiresAt := none },
   { id := 2, userId := "u1", sessionId := "s2", content := "third",
     metadata := "\x7b\x7d", importance := mkRat 1 2, timestamp := 200, expiresAt := none }]

/-- Claim C8 witness: the listing theorem at the concrete three-memory
store, yielding exactly one entry for session s1. -/
theorem getUserSessions_spec_witness :
    (RustBridge.getUserSessions listingDemoStore "u1").countP (fun s => s.id == "s1") = 1 := by
  have h := (getUserSessions_spec listingDemoStore "u1" (by decide)).1 "s1"
  rw [h]
  decide

end MindCache
